import Mathlib

/-!
Shallow embedding of the TaskMaster todo API (Express + Mongoose backend):
the Todo model with its query statics (`models/Todo.js`), the todo routes
(`routes/todos.js`), the auth middleware (`middleware/auth.js`) and the auth
routes (`routes/auth.js`).  Documents are Lean structures, the MongoDB
collection is a `List`, and each route handler is a pure function from the
request data (and the current store) to a response value and the new store.
ObjectIds are `Nat`, timestamps are `Int` (milliseconds).
-/

namespace TaskMaster

/-! ## Data model: the Todo document (`models/Todo.js`) -/

/-- A Todo document.  Fields mirror `todoSchema`: `completed` defaults to
false, `completedAt` and `dueDate` default to null (`none`), `category`
defaults to "general".  `createdAt` is the timestamp added by
`timestamps: true`. -/
structure Todo where
  id : Nat
  user : Nat
  title : String
  description : String
  completed : Bool
  priority : String
  dueDate : Option Int
  completedAt : Option Int
  category : String
  tags : List String
  createdAt : Int
deriving DecidableEq, Repr

/-! ## MongoDB ordering primitives

BSON compares strings by their UTF-8 bytes; UTF-8 byte order coincides with
code-point order, so lexicographic comparison of the character lists is
faithful. -/

/-- Strict lexicographic order on character lists, by code point (= BSON
binary string order, no collation configured in the source). -/
def lexLt : List Char → List Char → Bool
  | [], [] => false
  | [], _ :: _ => true
  | _ :: _, [] => false
  | a :: as, b :: bs =>
    if a.val < b.val then true
    else if b.val < a.val then false
    else lexLt as bs

/-- BSON string comparison used by `sort` on string fields. -/
def strLt (a b : String) : Bool := lexLt a.toList b.toList

/-- BSON ascending order on a nullable date field: null sorts before any
date. -/
def ltOptDate : Option Int → Option Int → Bool
  | none, none => false
  | none, some _ => true
  | some _, none => false
  | some a, some b => decide (a < b)

/-- Strict "document a sorts before document b" relation for each `sortBy`
value, translated from the `switch` in `getUserTodos`:
`dueDate` and the compound sorts use the second key only on ties of the
first; the default (`sortBy` absent or unrecognized) is
`\x7b createdAt: -1 \x7d` (newest first). -/
def todoLt (sortBy : Option String) (a b : Todo) : Bool :=
  match sortBy with
  | some "dueDate" =>
    if ltOptDate a.dueDate b.dueDate then true
    else if ltOptDate b.dueDate a.dueDate then false
    else decide (b.createdAt < a.createdAt)
  | some "priority" =>
    if strLt b.priority a.priority then true
    else if strLt a.priority b.priority then false
    else decide (b.createdAt < a.createdAt)
  | some "title" => strLt a.title b.title
  | some "completed" =>
    if !a.completed && b.completed then true
    else if !b.completed && a.completed then false
    else decide (b.createdAt < a.createdAt)
  | _ => decide (b.createdAt < a.createdAt)

/-- Non-strict version used by the stable sort. -/
def todoLE (sortBy : Option String) (a b : Todo) : Bool := !(todoLt sortBy b a)

/-- Stable insertion of one todo into a sorted list. -/
def insertTodo (le : Todo → Todo → Bool) (x : Todo) : List Todo → List Todo
  | [] => [x]
  | y :: ys => if le x y then x :: y :: ys else y :: insertTodo le x ys

/-- Stable insertion sort modelling the cursor `sort`. -/
def sortTodos (le : Todo → Todo → Bool) : List Todo → List Todo
  | [] => []
  | x :: xs => insertTodo le x (sortTodos le xs)

/-! ## The `$regex ... $options: i` matcher

`getUserTodos` and `GET /search/:query` hand the raw search string to
MongoDB as `\x7b $regex: s, $options: 'i' \x7d`, i.e. the string is a PCRE
pattern, matched anywhere in the field, case-insensitively.  The model below
covers the PCRE fragment in which the pattern consists of literal characters
and the `.` wildcard (which matches any single character); other
metacharacters are outside the model, and every theorem that quantifies over
patterns restricts them to metacharacter-free strings. -/

/-- One token of the modelled regex fragment. -/
inductive RTok where
  | dot
  | lit (c : Char)
deriving DecidableEq, Repr

/-- Pattern compilation for the modelled fragment: `.` is the wildcard,
everything else is a literal. -/
def parseR (l : List Char) : List RTok :=
  l.map fun c => if c == '.' then RTok.dot else RTok.lit c

/-- Case-insensitive character equality (the effect of `$options: 'i'`). -/
def lowerEqCh (a b : Char) : Bool := a.toLower == b.toLower

/-- Whether a token matches one subject character. -/
def tokM : RTok → Char → Bool
  | RTok.dot, _ => true
  | RTok.lit a, c => lowerEqCh a c

/-- Whether the token list matches a prefix of the subject. -/
def matchHere : List RTok → List Char → Bool
  | [], _ => true
  | _ :: _, [] => false
  | t :: ts, c :: cs => tokM t c && matchHere ts cs

/-- Unanchored regex search: the pattern may match starting at any
position. -/
def regexSearch (p : List RTok) : List Char → Bool
  | [] => matchHere p []
  | c :: cs => matchHere p (c :: cs) || regexSearch p cs

/-- The test the source performs with
`\x7b $regex: pat, $options: 'i' \x7d` against a string field. -/
def regexTestCI (pat subj : String) : Bool :=
  regexSearch (parseR pat.toList) subj.toList

/-- Characters with a special meaning in a PCRE pattern. -/
def isRegexMeta (c : Char) : Bool :=
  ".*+?()[]^$|\\".toList.contains c || c == Char.ofNat 123 || c == Char.ofNat 125

/-- Case-insensitive prefix test on character lists. -/
def prefCI : List Char → List Char → Bool
  | [], _ => true
  | _ :: _, [] => false
  | a :: as, b :: bs => lowerEqCh a b && prefCI as bs

/-- Case-insensitive substring test on character lists. -/
def substrCI (p : List Char) : List Char → Bool
  | [] => prefCI p []
  | c :: cs => prefCI p (c :: cs) || substrCI p cs

/-- Per the spec's words: the search string "matches case-insensitively as a
substring" of the field.  Stated independently of the source's regex
matcher, to be compared against it. -/
def containsSubstrCI (pat subj : String) : Bool :=
  substrCI pat.toList subj.toList

/-! ## Pagination parsing (`parseInt(x) || default`) -/

/-- Value of a decimal digit string. -/
def digitsToNat (l : List Char) : Nat :=
  l.foldl (fun acc c => acc * 10 + (c.toNat - 48)) 0

/-- Leading decimal digits of a string, or `none` when there are none
(JS `parseInt` then returns NaN). -/
def parseDigits (l : List Char) : Option Nat :=
  let ds := l.takeWhile Char.isDigit
  if ds.isEmpty then none else some (digitsToNat ds)

/-- The whitespace characters `parseInt` strips (ECMAScript WhiteSpace and
LineTerminator: tab, LF, VT, FF, CR, space, NBSP, Ogham space mark, the
U+2000–U+200A spaces, line/paragraph separator, narrow no-break space,
medium mathematical space, ideographic space, BOM). -/
def isJsSpace (c : Char) : Bool :=
  c == ' ' || c == '\t' || c == '\n' || c == '\r' || c == '\x0b' || c == '\x0c'
  || c.toNat == 0xA0 || c.toNat == 0x1680
  || (decide (0x2000 ≤ c.toNat) && decide (c.toNat ≤ 0x200A))
  || c.toNat == 0x2028 || c.toNat == 0x2029 || c.toNat == 0x202F
  || c.toNat == 0x205F || c.toNat == 0x3000 || c.toNat == 0xFEFF

/-- Hexadecimal digit test (after a `0x`/`0X` prefix). -/
def isHexDigit (c : Char) : Bool :=
  c.isDigit || decide ('a' ≤ c ∧ c ≤ 'f') || decide ('A' ≤ c ∧ c ≤ 'F')

/-- Value of one hexadecimal digit. -/
def hexDigitVal (c : Char) : Nat :=
  if c.isDigit then c.toNat - 48
  else if 'a' ≤ c ∧ c ≤ 'f' then c.toNat - 87
  else c.toNat - 55

/-- Value of a hexadecimal digit string. -/
def hexToNat (l : List Char) : Nat :=
  l.foldl (fun acc c => acc * 16 + hexDigitVal c) 0

/-- The part of `parseInt` after whitespace and sign stripping: a
`0x`/`0X` prefix switches to hexadecimal (NaN when no hex digit follows),
otherwise leading decimal digits are read; trailing characters are
ignored; `none` stands for NaN. -/
def parseAfterSign (l : List Char) : Option Nat :=
  match l with
  | '0' :: c :: rest =>
    if c == 'x' || c == 'X' then
      let ds := rest.takeWhile isHexDigit
      if ds.isEmpty then none else some (hexToNat ds)
    else parseDigits ('0' :: c :: rest)
  | _ => parseDigits l

/-- JS `parseInt(s)` with no radix argument: strip leading ECMAScript
whitespace, accept an optional sign, auto-detect a hexadecimal `0x` prefix,
else read leading decimal digits, ignoring any trailing characters; `none`
stands for NaN. -/
def jsParseInt (s : String) : Option Int :=
  match s.toList.dropWhile isJsSpace with
  | '-' :: rest => (parseAfterSign rest).map fun n => -(n : Int)
  | '+' :: rest => (parseAfterSign rest).map fun n => (n : Int)
  | rest => (parseAfterSign rest).map fun n => (n : Int)

/-- JS `v || d` applied to a `parseInt` result: NaN (`none`) and 0 are
falsy, every other number passes through (negative values included). -/
def jsOrDefault (v : Option Int) (d : Int) : Int :=
  match v with
  | some n => if n == 0 then d else n
  | none => d

/-- Effective limit of the list operation: `parseInt(filters.limit) || 50`
(`filters.limit` absent gives NaN, hence 50). -/
def effLimit (l : Option String) : Int := jsOrDefault (l.bind jsParseInt) 50

/-- Effective skip of the list operation: `parseInt(filters.skip) || 0`. -/
def effSkip (s : Option String) : Int := jsOrDefault (s.bind jsParseInt) 0

/-! ## The list operation (`Todo.getUserTodos`) -/

/-- The filter set passed by `GET /api/todos`; absent query parameters are
`none`.  `completed` is already decoded by the route
(`'true' → some true, 'false' → some false, else none`); date bounds are
modelled as already-parsed timestamps. -/
structure Filters where
  completed : Option Bool := none
  priority : Option String := none
  category : Option String := none
  search : Option String := none
  sortBy : Option String := none
  limit : Option String := none
  skip : Option String := none
  startDate : Option Int := none
  endDate : Option Int := none
  dueBefore : Option Int := none
deriving DecidableEq, Repr

/-- The query document built by `getUserTodos`, as a predicate on one todo:
mandatory owner equality, then each filter guarded by JS truthiness exactly
as in the source (`filters.completed !== undefined`, `if (filters.priority)`
etc.).  `dueBefore` uses `$lte` on `dueDate`, which a null `dueDate` never
satisfies (BSON type bracketing). -/
def matchesFilters (uid : Nat) (f : Filters) (t : Todo) : Bool :=
  t.user == uid
  && (match f.completed with
      | some b => t.completed == b
      | none => true)
  && (match f.priority with
      | some p => if p == "" then true else t.priority == p
      | none => true)
  && (match f.category with
      | some c => if c == "" then true else t.category == c
      | none => true)
  && (match f.search with
      | some s =>
        if s == "" then true
        else regexTestCI s t.title || regexTestCI s t.description
      | none => true)
  && (match f.startDate with
      | some d => decide (d ≤ t.createdAt)
      | none => true)
  && (match f.endDate with
      | some d => decide (t.createdAt ≤ d)
      | none => true)
  && (match f.dueBefore with
      | some d =>
        match t.dueDate with
        | some dd => decide (dd ≤ d)
        | none => false
      | none => true)

/-- An error response: HTTP status code and the `error` field of the JSON
body. -/
structure ApiError where
  status : Nat
  error : String
deriving DecidableEq, Repr

/-- Shape returned by `getUserTodos`. -/
structure ListResult where
  todos : List Todo
  total : Nat
  limit : Int
  skip : Int
  hasMore : Bool
deriving DecidableEq, Repr

/-- `Todo.getUserTodos(userId, filters)` behind `GET /api/todos`: filter,
sort, paginate (the cursor applies `skip` before `limit` regardless of call
order), count all matches, and report
`hasMore: total > skip + todos.length`.  A negative skip makes the `find`
command fail with a BadValue error, which the route catches and turns into
a 500 "Failed to fetch todos"; a negative limit is accepted by MongoDB and
returns a single batch of up to `|limit|` documents (hence `natAbs`),
while the reported `limit`/`skip` fields keep the parsed values.  `limit`
is never 0 here: `parseInt(x) || 50` turns 0 into the default. -/
def getUserTodos (db : List Todo) (uid : Nat) (f : Filters) :
    Except ApiError ListResult :=
  let matched := db.filter fun t => matchesFilters uid f t
  let limit := effLimit f.limit
  let skip := effSkip f.skip
  if skip < 0 then Except.error ⟨500, "Failed to fetch todos"⟩
  else
    let sorted := sortTodos (todoLE f.sortBy) matched
    let todos := (sorted.drop skip.toNat).take limit.natAbs
    Except.ok
      { todos := todos
        total := matched.length
        limit := limit
        skip := skip
        hasMore := decide ((matched.length : Int) > skip + todos.length) }

/-! ## The search operation (`GET /api/todos/search/:query`) -/

/-- The match predicate of the search endpoint: owner equality plus the same
case-insensitive `$regex` test against title or description. -/
def searchMatch (q : String) (uid : Nat) (t : Todo) : Bool :=
  t.user == uid && (regexTestCI q t.title || regexTestCI q t.description)

/-- Shape returned by the search endpoint (`data` object). -/
structure SearchResult where
  todos : List Todo
  total : Nat
  limit : Int
  skip : Int
  hasMore : Bool
  searchQuery : String
deriving DecidableEq, Repr

/-- `GET /api/todos/search/:query`: `parseInt(limit) || 20`,
`parseInt(skip) || 0`, filter by `searchMatch`, sort newest first, paginate,
echo the query string.  As in `getUserTodos`, a negative skip makes the
`find` fail (BadValue), which the route catches into a 500 "Failed to
search todos", and a negative limit returns a single batch of up to
`|limit|` documents. -/
def searchTodos (db : List Todo) (uid : Nat) (q : String)
    (limq skipq : Option String) : Except ApiError SearchResult :=
  let limit := jsOrDefault (limq.bind jsParseInt) 20
  let skip := jsOrDefault (skipq.bind jsParseInt) 0
  if skip < 0 then Except.error ⟨500, "Failed to search todos"⟩
  else
    let matched := db.filter (searchMatch q uid)
    let sorted := sortTodos (todoLE none) matched
    let todos := (sorted.drop skip.toNat).take limit.natAbs
    Except.ok
      { todos := todos
        total := matched.length
        limit := limit
        skip := skip
        hasMore := decide ((matched.length : Int) > skip + todos.length)
        searchQuery := q }

/-! ## Bulk delete (`DELETE /api/todos`) -/

/-- `DELETE /api/todos`: 400 when `ids` is absent or empty, else
`deleteMany(\x7b _id: \x7b $in: ids \x7d, user: req.userId \x7d)`.  Returns
`deletedCount` and the remaining collection. -/
def bulkDelete (db : List Todo) (uid : Nat) (ids : Option (List Nat)) :
    Except ApiError (Nat × List Todo) :=
  match ids with
  | none => Except.error ⟨400, "Todo IDs array is required"⟩
  | some l =>
    if l.isEmpty then Except.error ⟨400, "Todo IDs array is required"⟩
    else
      let hit := fun (t : Todo) => l.contains t.id && t.user == uid
      Except.ok ((db.filter hit).length, db.filter fun t => !(hit t))

/-! ## Bulk update (`PATCH /api/todos/bulk-update`) -/

/-- The update set after the `allowedUpdates` whitelist of the bulk-update
route: only `completed`, `priority`, `category` survive; any other key of
the request body is dropped before this structure is formed. -/
structure BulkUpdates where
  completed : Option Bool := none
  priority : Option String := none
  category : Option String := none
deriving DecidableEq, Repr

/-- Direct `$set` application of the filtered updates to one document.
`updateMany` runs no document middleware, so `completedAt` is never
touched here. -/
def applyBulkUpdates (u : BulkUpdates) (t : Todo) : Todo :=
  let t1 := match u.completed with
    | some b => { t with completed := b }
    | none => t
  let t2 := match u.priority with
    | some p => { t1 with priority := p }
    | none => t1
  match u.category with
  | some c => { t2 with category := c }
  | none => t2

/-- `PATCH /api/todos/bulk-update`: 400 when `ids` is absent/empty, 400 when
`updates` is absent, 400 when no whitelisted field is present; else
`updateMany` on the caller's listed todos.  `modifiedCount` counts the
matched documents the update actually changed. -/
def bulkUpdate (db : List Todo) (uid : Nat) (ids : Option (List Nat))
    (updates : Option BulkUpdates) : Except ApiError (Nat × List Todo) :=
  match ids with
  | none => Except.error ⟨400, "Todo IDs array is required"⟩
  | some l =>
    if l.isEmpty then Except.error ⟨400, "Todo IDs array is required"⟩
    else
      match updates with
      | none => Except.error ⟨400, "Updates object is required"⟩
      | some u =>
        if u.completed == none && u.priority == none && u.category == none then
          Except.error ⟨400, "No valid fields to update"⟩
        else
          let hit := fun (t : Todo) => l.contains t.id && t.user == uid
          let db1 := db.map fun t => if hit t then applyBulkUpdates u t else t
          let modified :=
            (db.filter fun t => hit t && decide (applyBulkUpdates u t ≠ t)).length
          Except.ok (modified, db1)

/-! ## The pre-save hook and the toggle route -/

/-- `todoSchema.pre('save')`: when `completed` was modified, set
`completedAt` to now if the todo became completed and has no timestamp,
clear it if the todo is not completed; otherwise leave the document
alone. -/
def preSave (t : Todo) (modifiedCompleted : Bool) (now : Int) : Todo :=
  if modifiedCompleted then
    if t.completed && t.completedAt.isNone then { t with completedAt := some now }
    else if !t.completed then { t with completedAt := none }
    else t
  else t

/-- `PATCH /api/todos/:id/toggle` on an owned todo: negate `completed` and
`save()`.  The assignment always changes the loaded value, so
`isModified('completed')` is true in the hook.  Returns the stored todo and
the response message. -/
def toggleTodo (t : Todo) (now : Int) : Todo × String :=
  let t1 := { t with completed := !t.completed }
  let t2 := preSave t1 true now
  (t2, if t2.completed then "Todo marked as completed" else "Todo marked as pending")

/-- `POST /api/todos` (create): build the document from the body with the
schema defaults (`completed := false`, `completedAt := null`) and
`save()` it; on a new document the hook sees `completed = false` and leaves
`completedAt` null. -/
def createTodo (uid : Nat) (freshId : Nat) (title descr : String)
    (priority : Option String) (dueDate : Option Int) (category : Option String)
    (tags : List String) (now : Int) : Except ApiError Todo :=
  if title.trim == "" then Except.error ⟨400, "Todo title is required"⟩
  else
    let t : Todo :=
      { id := freshId
        user := uid
        title := title.trim
        description := descr.trim
        completed := false
        priority := priority.getD "medium"
        dueDate := dueDate
        completedAt := none
        category := category.getD "general"
        tags := tags
        createdAt := now }
    Except.ok (preSave t true now)

/-! ## Users, tokens and the auth middleware (`middleware/auth.js`,
`routes/auth.js`) -/

/-- One entry of a user's active refresh-token set.  Modelled from the spec:
the User model file is not among the sources; the spec gives users "a set of
currently-valid refresh tokens (each tagged with issuance time)". -/
structure RefreshTokenEntry where
  token : String
  createdAt : Int
deriving DecidableEq, Repr

/-- A User document (the fields the embedded routes read).  Modelled from
the spec where the User model is missing from the sources: unique
username/email, name fields, an `isActive` flag, the refresh-token set. -/
structure User where
  id : Nat
  username : String
  email : String
  firstName : String
  lastName : String
  isActive : Bool
  refreshTokens : List RefreshTokenEntry
deriving DecidableEq, Repr

/-- Modelled from the spec: `user.removeRefreshToken(token)` of the missing
User model; refresh tokens are "destroyed on logout", i.e. every stored
entry carrying this token string leaves the active set. -/
def removeRefreshToken (u : User) (tok : String) : User :=
  { u with refreshTokens := u.refreshTokens.filter fun rt => rt.token ≠ tok }

/-- Modelled from the spec: `user.addRefreshToken(token)` of the missing
User model; the issued token joins the active set tagged with its issuance
time. -/
def addRefreshToken (u : User) (tok : String) (now : Int) : User :=
  { u with refreshTokens := u.refreshTokens ++ [⟨tok, now⟩] }

/-- Decoded JWT payload: `generateTokens` signs `\x7b userId \x7d` for
access tokens and `\x7b userId, type: 'refresh' \x7d` for refresh tokens. -/
structure JwtPayload where
  userId : Nat
  type : Option String
deriving DecidableEq, Repr

/-- Outcome of `jwt.verify`: a decoded payload, a `TokenExpiredError`, or a
`JsonWebTokenError` (bad signature / malformed). -/
inductive VerifyOutcome where
  | ok (p : JwtPayload)
  | expired
  | invalid
deriving DecidableEq, Repr

/-- `validateRefreshToken` middleware: token required in the body (JS
truthiness), signature verified, `type` tag must be `'refresh'`, the user
must exist and be active, and the token must be present in the user's
active refresh-token set; each failure is a 401.  On success it yields the
user and the presented token. -/
def validateRefreshToken (verify : String → VerifyOutcome)
    (findUser : Nat → Option User) (body : Option String) :
    Except ApiError (User × String) :=
  match body with
  | none => Except.error ⟨401, "Refresh token is required"⟩
  | some tok =>
    if tok == "" then Except.error ⟨401, "Refresh token is required"⟩
    else
      match verify tok with
      | VerifyOutcome.expired => Except.error ⟨401, "Refresh token expired"⟩
      | VerifyOutcome.invalid => Except.error ⟨401, "Invalid refresh token"⟩
      | VerifyOutcome.ok p =>
        if p.type ≠ some "refresh" then
          Except.error ⟨401, "Invalid refresh token"⟩
        else
          match findUser p.userId with
          | none => Except.error ⟨401, "Invalid refresh token. User not found."⟩
          | some u =>
            if !u.isActive then
              Except.error ⟨401, "Invalid refresh token. User not found."⟩
            else if !(u.refreshTokens.any fun rt => rt.token == tok) then
              Except.error ⟨401, "Invalid refresh token"⟩
            else
              Except.ok (u, tok)

/-- `POST /api/auth/refresh`: run `validateRefreshToken`; on success rotate
(remove the old token, add the freshly generated pair's refresh token) and
return the new pair with the updated user.  An error issues no tokens. -/
def refreshHandler (verify : String → VerifyOutcome)
    (findUser : Nat → Option User) (body : Option String)
    (newPair : String × String) (now : Int) :
    Except ApiError (String × String × User) :=
  match validateRefreshToken verify findUser body with
  | Except.error e => Except.error e
  | Except.ok (u, old) =>
    let u1 := removeRefreshToken u old
    let u2 := addRefreshToken u1 newPair.2 now
    Except.ok (newPair.1, newPair.2, u2)

/-- `POST /api/auth/logout` (behind `authenticate`): when the body carries a
truthy `refreshToken` it is removed from the caller's set, otherwise nothing
is removed; either way the response is 200 "Logout successful". -/
def logoutHandler (u : User) (body : Option String) : (Nat × String) × User :=
  match body with
  | some tok =>
    if tok ≠ "" then ((200, "Logout successful"), removeRefreshToken u tok)
    else ((200, "Logout successful"), u)
  | none => ((200, "Logout successful"), u)

/-! ## Registration (`POST /api/auth/register`) -/

/-- The registration request body; absent fields are `none`. -/
structure RegisterReq where
  username : Option String := none
  email : Option String := none
  firstName : Option String := none
  lastName : Option String := none
  password : Option String := none
deriving DecidableEq, Repr

/-- JS truthiness of an optional string field. -/
def strTruthy : Option String → Bool
  | some s => s ≠ ""
  | none => false

/-- `POST /api/auth/register`: all five fields required (400 otherwise);
`User.findOne(\x7b $or: [\x7b email \x7d, \x7b username \x7d] \x7d)` — a hit
yields 400 naming `email` when the found user's email equals the given one,
else `username`, and no user is created and no tokens are issued; otherwise
the user is created, a token pair is generated, and the refresh token is
stored on the new user.  Returns the response and the user store after the
request. -/
def registerHandler (db : List User) (r : RegisterReq) (freshId : Nat)
    (pair : String × String) (now : Int) :
    Except ApiError (User × String × String) × List User :=
  if !(strTruthy r.username && strTruthy r.email && strTruthy r.firstName
      && strTruthy r.lastName && strTruthy r.password) then
    (Except.error ⟨400, "All fields are required"⟩, db)
  else
    let username := r.username.getD ""
    let email := r.email.getD ""
    match db.find? fun u => u.email == email || u.username == username with
    | some ex =>
      let fieldName := if ex.email == email then "email" else "username"
      (Except.error ⟨400, "User with this " ++ fieldName ++ " already exists"⟩, db)
    | none =>
      let created : User :=
        { id := freshId
          username := username
          email := email
          firstName := r.firstName.getD ""
          lastName := r.lastName.getD ""
          isActive := true
          refreshTokens := [] }
      let created := addRefreshToken created pair.2 now
      (Except.ok (created, pair.1, pair.2), db ++ [created])

/-! ## Helper lemmas -/

/-- A character that is no PCRE metacharacter is in particular not the
wildcard dot. -/
theorem notMeta_ne_dot {c : Char} (h : isRegexMeta c = false) : (c == '.') = false := by
  by_cases hc : c = '.'
  · subst hc
    have ht : isRegexMeta '.' = true := by decide
    rw [ht] at h
    exact Bool.noConfusion h
  · simp [hc]

/-- On metacharacter-free patterns, compilation produces only literal
tokens. -/
theorem parseR_of_no_meta (l : List Char) (h : ∀ c ∈ l, isRegexMeta c = false) :
    parseR l = l.map RTok.lit := by
  unfold parseR
  refine List.map_congr_left fun a ha => ?_
  rw [notMeta_ne_dot (h a ha)]
  simp

/-- Matching a list of literal tokens at the front of the subject is the
case-insensitive prefix test. -/
theorem matchHere_map_lit (l : List Char) : ∀ s, matchHere (l.map RTok.lit) s = prefCI l s := by
  induction l with
  | nil => intro s; rfl
  | cons a as ih =>
    intro s
    cases s with
    | nil => rfl
    | cons b bs => simp [matchHere, prefCI, tokM, ih]

/-- Unanchored search with only literal tokens is the case-insensitive
substring test. -/
theorem regexSearch_map_lit (l : List Char) (s : List Char) :
    regexSearch (l.map RTok.lit) s = substrCI l s := by
  induction s with
  | nil => simp [regexSearch, substrCI, matchHere_map_lit]
  | cons b bs ih => simp [regexSearch, substrCI, matchHere_map_lit, ih]

/-- On metacharacter-free search strings, the source's `$regex`/`i` test
coincides with the spec's case-insensitive substring semantics. -/
theorem regexTestCI_eq_containsSubstrCI (pat subj : String)
    (h : ∀ c ∈ pat.toList, isRegexMeta c = false) :
    regexTestCI pat subj = containsSubstrCI pat subj := by
  unfold regexTestCI containsSubstrCI
  rw [parseR_of_no_meta _ h, regexSearch_map_lit]

/-- After filtering out every entry holding a token, no entry holds it. -/
theorem any_token_of_filter_ne (l : List RefreshTokenEntry) (tok : String) :
    ((l.filter fun rt => rt.token ≠ tok).any fun rt => rt.token == tok) = false := by
  induction l with
  | nil => rfl
  | cons a as ih =>
    by_cases h : a.token = tok
    · simp [List.filter_cons, h, ih]
    · simp [List.filter_cons, h, ih]

/-- A `Filters` value carrying only a search string (what
`GET /api/todos?search=...` produces). -/
def searchOnly (s : String) : Filters := { search := some s }

/-! ## Concrete fixtures -/

/-- A pending todo (completed=false, completedAt=null) owned by user 7. -/
def c1Pending : Todo :=
  { id := 1, user := 7, title := "buy milk", description := "", completed := false,
    priority := "medium", dueDate := none, completedAt := none, category := "general",
    tags := [], createdAt := 100 }

/-- What `updateMany` stores for `c1Pending` under
`updates = \x7b completed: true \x7d`. -/
def c1After : Todo := { c1Pending with completed := true }

/-- A low-priority todo of user 1, newest. -/
def c2Low : Todo :=
  { id := 1, user := 1, title := "a", description := "", completed := false,
    priority := "low", dueDate := none, completedAt := none, category := "general",
    tags := [], createdAt := 3 }

/-- A medium-priority todo of user 1. -/
def c2Med : Todo := { c2Low with id := 2, priority := "medium", createdAt := 2 }

/-- A high-priority todo of user 1, oldest. -/
def c2High : Todo := { c2Low with id := 3, priority := "high", createdAt := 1 }

/-- An active user holding one refresh token "t1". -/
def c3User : User :=
  { id := 1, username := "alice", email := "alice@x.com", firstName := "A",
    lastName := "L", isActive := true, refreshTokens := [⟨"t1", 0⟩] }

/-- A verifier accepting exactly the signed, unexpired refresh token
"t1" of user 1. -/
def c3Verify : String → VerifyOutcome := fun s =>
  if s == "t1" then VerifyOutcome.ok ⟨1, some "refresh"⟩ else VerifyOutcome.invalid

/-- The user store after user 1 logged out of "t1". -/
def c3Find : Nat → Option User := fun i =>
  if i == 1 then some (removeRefreshToken c3User "t1") else none

/-- A todo owned by user 2 (not the later caller 1). -/
def c5Foreign : Todo :=
  { id := 1, user := 2, title := "theirs", description := "", completed := false,
    priority := "medium", dueDate := none, completedAt := none, category := "general",
    tags := [], createdAt := 5 }

/-- A todo of user 1 titled "abc" (no dot in title or description). -/
def c6Abc : Todo :=
  { id := 1, user := 1, title := "abc", description := "", completed := false,
    priority := "medium", dueDate := none, completedAt := none, category := "general",
    tags := [], createdAt := 9 }

/-- A todo of user 1 titled "Buy MILK". -/
def c6Milk : Todo :=
  { id := 2, user := 1, title := "Buy MILK", description := "", completed := false,
    priority := "medium", dueDate := none, completedAt := none, category := "general",
    tags := [], createdAt := 10 }

/-- A pending todo for the toggle scenario. -/
def c8Pending : Todo :=
  { id := 4, user := 3, title := "t", description := "", completed := false,
    priority := "medium", dueDate := none, completedAt := none, category := "general",
    tags := [], createdAt := 50 }

/-- A registered user alice. -/
def c9Alice : User :=
  { id := 1, username := "alice", email := "alice@x.com", firstName := "A",
    lastName := "L", isActive := true, refreshTokens := [] }

/-- A second registration using alice's email with a fresh username. -/
def c9ReqSameEmail : RegisterReq :=
  { username := some "alice2", email := some "alice@x.com", firstName := some "A",
    lastName := some "L", password := some "secret1" }

/-! ## Claims -/

/-- C1: the spec requires `completedAt` non-null iff `completed` on every
mutation path, bulk update included; but `PATCH /bulk-update` writes through
`updateMany`, which runs no pre-save hook, so setting `completed=true` on a
pending owned todo stores `completed=true` with `completedAt` still null —
the invariant is broken on this path. -/
theorem c1_bulk_update_bypasses_completedAt_hook :
    bulkUpdate [c1Pending] 7 (some [1]) (some { completed := some true }) =
      Except.ok (1, [c1After]) ∧
    c1After.completed = true ∧ c1After.completedAt = none :=
  ⟨rfl, rfl, rfl⟩

/-- C2: the claim says `sortBy=priority` puts every "high" todo before every
"medium" before every "low"; the code sorts the priority *strings*
descending in BSON binary order, where "medium" > "low" > "high", so three
todos of priorities low/medium/high come back medium, low, high. -/
theorem c2_priority_sort_is_lexicographic :
    ((getUserTodos [c2Low, c2Med, c2High] 1 { sortBy := some "priority" }).map fun r =>
      r.todos.map Todo.priority) = Except.ok ["medium", "low", "high"] ∧
    ((getUserTodos [c2Low, c2Med, c2High] 1 { sortBy := some "priority" }).map fun r =>
      r.todos.map Todo.id) = Except.ok [2, 1, 3] :=
  ⟨rfl, rfl⟩

/-- C3: a refresh token that logout removed from the user's active set is
rejected by `POST /api/auth/refresh` with a 401 and no new pair is issued,
even though its signature verifies, it is unexpired, and it carries the
`refresh` type tag. -/
theorem c3_revoked_refresh_token_rejected
    (u : User) (tok : String) (verify : String → VerifyOutcome)
    (findUser : Nat → Option User) (pair : String × String) (now : Int)
    (htok : tok ≠ "")
    (hverify : verify tok = VerifyOutcome.ok ⟨u.id, some "refresh"⟩)
    (hactive : u.isActive = true)
    (hfind : findUser u.id = some (removeRefreshToken u tok)) :
    refreshHandler verify findUser (some tok) pair now =
      Except.error ⟨401, "Invalid refresh token"⟩ := by
  have hbeq : (tok == "") = false := beq_eq_false_iff_ne.mpr htok
  have hany := any_token_of_filter_ne u.refreshTokens tok
  simp [refreshHandler, validateRefreshToken, hbeq, hverify, hfind,
    removeRefreshToken, hactive, hany]

/-- Witness for C3 at a concrete store: user 1 logged out of "t1", then
presents "t1" to refresh. -/
theorem c3_witness :
    refreshHandler c3Verify c3Find (some "t1") ("a2", "r2") 5 =
      Except.error ⟨401, "Invalid refresh token"⟩ :=
  c3_revoked_refresh_token_rejected c3User "t1" c3Verify c3Find ("a2", "r2") 5
    (by decide) rfl rfl rfl

/-- C4: every result the list operation or the search operation returns has
`hasMore` true exactly when the total match count exceeds `skip` plus the
number of returned items, where `total` is pinned down to the count of all
matches ignoring pagination. -/
theorem c4_hasMore_iff_total_exceeds_page (db : List Todo) (uid : Nat) (f : Filters)
    (q : String) (limq skipq : Option String) :
    (∀ r, getUserTodos db uid f = Except.ok r →
      (r.hasMore = true ↔ (r.total : Int) > r.skip + (r.todos.length : Int)) ∧
      r.total = (db.filter fun t => matchesFilters uid f t).length) ∧
    (∀ r, searchTodos db uid q limq skipq = Except.ok r →
      (r.hasMore = true ↔ (r.total : Int) > r.skip + (r.todos.length : Int)) ∧
      r.total = (db.filter (searchMatch q uid)).length) := by
  constructor
  · intro r hr
    simp only [getUserTodos] at hr
    split at hr
    · exact absurd hr (by simp)
    · obtain rfl := Except.ok.inj hr
      exact ⟨by simp, rfl⟩
  · intro r hr
    simp only [searchTodos] at hr
    split at hr
    · exact absurd hr (by simp)
    · obtain rfl := Except.ok.inj hr
      exact ⟨by simp, rfl⟩

/-- Witness for C4 at a concrete empty store: both operations return their
page, and the hasMore biconditional and the total pin hold on it. -/
theorem c4_witness :
    (((⟨[], 0, 50, 0, false⟩ : ListResult).hasMore = true ↔
        ((⟨[], 0, 50, 0, false⟩ : ListResult).total : Int) >
          (⟨[], 0, 50, 0, false⟩ : ListResult).skip +
            ((⟨[], 0, 50, 0, false⟩ : ListResult).todos.length : Int)) ∧
      (⟨[], 0, 50, 0, false⟩ : ListResult).total =
        (([] : List Todo).filter fun t => matchesFilters 0 {} t).length) ∧
    (((⟨[], 0, 20, 0, false, "x"⟩ : SearchResult).hasMore = true ↔
        ((⟨[], 0, 20, 0, false, "x"⟩ : SearchResult).total : Int) >
          (⟨[], 0, 20, 0, false, "x"⟩ : SearchResult).skip +
            ((⟨[], 0, 20, 0, false, "x"⟩ : SearchResult).todos.length : Int)) ∧
      (⟨[], 0, 20, 0, false, "x"⟩ : SearchResult).total =
        (([] : List Todo).filter (searchMatch "x" 0)).length) :=
  ⟨(c4_hasMore_iff_total_exceeds_page [] 0 {} "x" none none).1
      ⟨[], 0, 50, 0, false⟩ rfl,
   (c4_hasMore_iff_total_exceeds_page [] 0 {} "x" none none).2
      ⟨[], 0, 20, 0, false, "x"⟩ rfl⟩

/-- C5: bulk delete removes exactly the listed todos owned by the caller
and reports their number; listed ids owned by others are silently kept, and
a non-empty list touching only another user's todos succeeds with
deletedCount 0 and an unchanged store. -/
theorem c5_bulk_delete_scoped_to_owner (db : List Todo) (uid : Nat) (ids : List Nat)
    (hne : ids ≠ []) :
    bulkDelete db uid (some ids) =
      Except.ok ((db.filter fun t => ids.contains t.id && t.user == uid).length,
        db.filter fun t => !(ids.contains t.id && t.user == uid)) ∧
    ((∀ t ∈ db, ids.contains t.id = true → t.user ≠ uid) →
      bulkDelete db uid (some ids) = Except.ok (0, db)) := by
  have hempty : ids.isEmpty = false := by simp [List.isEmpty_iff, hne]
  have hmain : bulkDelete db uid (some ids) =
      Except.ok ((db.filter fun t => ids.contains t.id && t.user == uid).length,
        db.filter fun t => !(ids.contains t.id && t.user == uid)) := by
    simp [bulkDelete, hempty]
  refine ⟨hmain, fun h => ?_⟩
  have hall : ∀ t ∈ db, (ids.contains t.id && t.user == uid) = false := by
    intro t ht
    by_cases hc : ids.contains t.id = true
    · rw [hc, Bool.true_and]
      exact beq_eq_false_iff_ne.mpr (h t ht hc)
    · rw [Bool.eq_false_iff.mpr hc, Bool.false_and]
  have h1 : (db.filter fun t => ids.contains t.id && t.user == uid) = [] := by
    refine List.filter_eq_nil_iff.mpr ?_
    intro a ha
    show ¬ (ids.contains a.id && a.user == uid) = true
    rw [hall a ha]
    exact Bool.false_ne_true
  have h2 : (db.filter fun t => !(ids.contains t.id && t.user == uid)) = db := by
    refine List.filter_eq_self.mpr ?_
    intro a ha
    show (!(ids.contains a.id && a.user == uid)) = true
    rw [hall a ha]
    rfl
  rw [hmain, h1, h2]
  rfl

/-- Witness for C5: caller 1 bulk-deletes id 1, which belongs to user 2 —
0 deleted, store unchanged, no error. -/
theorem c5_witness :
    bulkDelete [c5Foreign] 1 (some [1]) = Except.ok (0, [c5Foreign]) :=
  (c5_bulk_delete_scoped_to_owner [c5Foreign] 1 [1] (by decide)).2 (by decide)

/-- C6 counterexample: the claim promises literal substring semantics for
every search string, but the code applies the string as a regular
expression: searching "a.c" returns the todo titled "abc", although "a.c"
is not a substring (case-insensitive) of its title or description. -/
theorem c6_counterexample_regex_vs_substring :
    searchTodos [c6Abc] 1 "a.c" none none =
      Except.ok ⟨[c6Abc], 1, 20, 0, false, "a.c"⟩ ∧
    containsSubstrCI "a.c" c6Abc.title = false ∧
    containsSubstrCI "a.c" c6Abc.description = false :=
  ⟨rfl, rfl, rfl⟩

/-- C6 (amended): for search strings free of regex metacharacters, the
list operation's search filter and the search endpoint select a todo
exactly when its title or description contains the string as a
case-insensitive substring — the same semantics in both — and the search
endpoint defaults to limit 20 and echoes the query string. -/
theorem c6_search_substring_semantics_amended (db : List Todo) (uid : Nat)
    (s : String) (t : Todo) (skipq : Option String)
    (hlit : ∀ c ∈ s.toList, isRegexMeta c = false) (hne : s ≠ "") :
    matchesFilters uid (searchOnly s) t =
      (t.user == uid && (containsSubstrCI s t.title || containsSubstrCI s t.description)) ∧
    searchMatch s uid t =
      (t.user == uid && (containsSubstrCI s t.title || containsSubstrCI s t.description)) ∧
    (∀ r, searchTodos db uid s none skipq = Except.ok r →
      r.limit = 20 ∧ r.searchQuery = s) := by
  have hbeq : (s == "") = false := beq_eq_false_iff_ne.mpr hne
  have hre : ∀ x, regexTestCI s x = containsSubstrCI s x := fun x =>
    regexTestCI_eq_containsSubstrCI s x hlit
  refine ⟨?_, ?_, ?_⟩
  · simp [matchesFilters, searchOnly, hbeq, hre]
  · simp [searchMatch, hre]
  · intro r hr
    simp only [searchTodos] at hr
    split at hr
    · exact absurd hr (by simp)
    · obtain rfl := Except.ok.inj hr
      exact ⟨by simp [jsOrDefault], rfl⟩

/-- Witness for C6 at the metacharacter-free search string "milk" against
the todo "Buy MILK". -/
theorem c6_witness :
    matchesFilters 1 (searchOnly "milk") c6Milk =
      (c6Milk.user == 1 &&
        (containsSubstrCI "milk" c6Milk.title || containsSubstrCI "milk" c6Milk.description)) ∧
    searchMatch "milk" 1 c6Milk =
      (c6Milk.user == 1 &&
        (containsSubstrCI "milk" c6Milk.title || containsSubstrCI "milk" c6Milk.description)) ∧
    (⟨[c6Milk], 1, 20, 0, false, "milk"⟩ : SearchResult).limit = 20 ∧
    (⟨[c6Milk], 1, 20, 0, false, "milk"⟩ : SearchResult).searchQuery = "milk" :=
  have h := c6_search_substring_semantics_amended [c6Milk] 1 "milk" c6Milk none
    (by decide) (by decide)
  ⟨h.1, h.2.1, h.2.2 ⟨[c6Milk], 1, 20, 0, false, "milk"⟩ rfl⟩

/-- C7 counterexample: the claim says limit and skip are parsed as
non-negative integers, but `parseInt` accepts a sign and the code passes a
negative limit through to a successful response: `GET /api/todos?limit=-5`
(skip absent) succeeds and reports effective limit −5, which is
negative. -/
theorem c7_counterexample_negative_limit :
    getUserTodos [] 0 { limit := some "-5" } =
      Except.ok ⟨[], 0, -5, 0, false⟩ ∧
    ¬(0 ≤ (-5 : Int)) :=
  ⟨rfl, by decide⟩

/-- C7 (amended): the effective limit is 50 when `limit` is absent and the
effective skip is 0 when `skip` is absent, and non-numeric input silently
falls back to the respective default rather than erroring; but the values
are parsed as signed integers, not non-negative ones: a negative limit
passes through to the response, and a negative skip makes the query fail,
the route answering 500. -/
theorem c7_defaults_and_non_numeric_amended (db : List Todo) (uid : Nat)
    (f g k : Filters) (s r : String)
    (hfl : f.limit = none) (hfs : f.skip = none)
    (hgl : g.limit = some s) (hgs : g.skip = some r)
    (hs : jsParseInt s = none) (hr : jsParseInt r = none)
    (hneg : effSkip k.skip < 0) :
    ((getUserTodos db uid f).map fun x => (x.limit, x.skip)) = Except.ok (50, 0) ∧
    ((getUserTodos db uid g).map fun x => (x.limit, x.skip)) = Except.ok (50, 0) ∧
    getUserTodos db uid k = Except.error ⟨500, "Failed to fetch todos"⟩ := by
  refine ⟨?_, ?_, ?_⟩
  · simp [getUserTodos, effLimit, effSkip, jsOrDefault, hfl, hfs, Except.map]
  · simp [getUserTodos, effLimit, effSkip, jsOrDefault, hgl, hgs, hs, hr, Except.map]
  · simp only [getUserTodos]
    rw [if_pos hneg]

/-- Witness for C7: absent limit/skip give 50 and 0, non-numeric "abc" and
"xyz" fall back to 50 and 0, and skip=-5 makes the request fail with
500. -/
theorem c7_witness :
    ((getUserTodos [] 0 {}).map fun x => (x.limit, x.skip)) = Except.ok (50, 0) ∧
    ((getUserTodos [] 0 { limit := some "abc", skip := some "xyz" }).map
      fun x => (x.limit, x.skip)) = Except.ok (50, 0) ∧
    getUserTodos [] 0 { skip := some "-5" } =
      Except.error ⟨500, "Failed to fetch todos"⟩ :=
  c7_defaults_and_non_numeric_amended [] 0 {} { limit := some "abc", skip := some "xyz" }
    { skip := some "-5" } "abc" "xyz" rfl rfl rfl rfl (by decide) (by decide) (by decide)

/-- C8: toggling a pending owned todo (completed=false, completedAt=null)
stores completed=true with completedAt set to the toggle time, and toggling
again stores completed=false with completedAt=null. -/
theorem c8_toggle_maintains_completedAt_pair (t : Todo) (n1 n2 : Int)
    (hc : t.completed = false) (ha : t.completedAt = none) :
    (toggleTodo t n1).1.completed = true ∧
    (toggleTodo t n1).1.completedAt = some n1 ∧
    (toggleTodo (toggleTodo t n1).1 n2).1.completed = false ∧
    (toggleTodo (toggleTodo t n1).1 n2).1.completedAt = none := by
  simp [toggleTodo, preSave, hc, ha]

/-- Witness for C8 on a concrete pending todo toggled at times 11 and
22. -/
theorem c8_witness :
    (toggleTodo c8Pending 11).1.completed = true ∧
    (toggleTodo c8Pending 11).1.completedAt = some 11 ∧
    (toggleTodo (toggleTodo c8Pending 11).1 22).1.completed = false ∧
    (toggleTodo (toggleTodo c8Pending 11).1 22).1.completedAt = none :=
  c8_toggle_maintains_completedAt_pair c8Pending 11 22 rfl rfl

/-- C9: when some stored user already has the requested email or the
requested username, registration (with all fields present) answers a 400
duplicate-field error naming email or username, stores no new user, and —
the result being an error — issues no token pair. -/
theorem c9_duplicate_registration_rejected (db : List User) (r : RegisterReq)
    (freshId : Nat) (pair : String × String) (now : Int)
    (hu : strTruthy r.username = true) (he : strTruthy r.email = true)
    (hf : strTruthy r.firstName = true) (hl : strTruthy r.lastName = true)
    (hp : strTruthy r.password = true)
    (hdup : ∃ u ∈ db,
      (u.email == r.email.getD "" || u.username == r.username.getD "") = true) :
    ∃ e : ApiError, registerHandler db r freshId pair now = (Except.error e, db) ∧
      e.status = 400 ∧
      (e.error = "User with this email already exists" ∨
       e.error = "User with this username already exists") := by
  have hfind : (db.find? fun u =>
      u.email == r.email.getD "" || u.username == r.username.getD "").isSome := by
    rw [List.find?_isSome]
    obtain ⟨u, hu1, hu2⟩ := hdup
    exact ⟨u, hu1, hu2⟩
  obtain ⟨ex, hex⟩ := Option.isSome_iff_exists.mp hfind
  refine ⟨⟨400, "User with this " ++
      (if ex.email == r.email.getD "" then "email" else "username") ++
      " already exists"⟩, ?_, rfl, ?_⟩
  · simp [registerHandler, hu, he, hf, hl, hp, hex]
  · by_cases hc : (ex.email == r.email.getD "") = true
    · exact Or.inl (by rw [if_pos hc]; exact rfl)
    · exact Or.inr (by rw [if_neg hc]; exact rfl)

/-- Witness for C9: registering "alice2" with alice's email against a store
already holding alice fails with a 400 duplicate error and leaves the store
as it was. -/
theorem c9_witness :
    ∃ e : ApiError,
      registerHandler [c9Alice] c9ReqSameEmail 2 ("a", "r") 0 =
        (Except.error e, [c9Alice]) ∧
      e.status = 400 ∧
      (e.error = "User with this email already exists" ∨
       e.error = "User with this username already exists") :=
  c9_duplicate_registration_rejected [c9Alice] c9ReqSameEmail 2 ("a", "r") 0
    (by decide) (by decide) (by decide) (by decide) (by decide)
    ⟨c9Alice, by simp, by decide⟩

/-- C10: `POST /api/auth/logout` with no `refreshToken` in the body
responds 200 "Logout successful" and leaves the caller's refresh-token set
untouched. -/
theorem c10_logout_without_token_succeeds (u : User) :
    logoutHandler u none = ((200, "Logout successful"), u) :=
  rfl

end TaskMaster
